import Mathlib

/-!
Verification of the rule engine of `quarkusconfigrules`.

The repository holds two evolving copies of the same validation module:
`src/scripts/validate_properties.py` (namespace `VProps` below) and
`src/scripts/validations.py` (namespace `Vals` below).  A property map is
the ordered key/value mapping produced by `read_properties` (a Python
dict preserves insertion order and has unique keys); we embed it as an
ordered list of string pairs.  Python exceptions are embedded with
`Except`: the one rule function that can raise an uncaught exception,
`validate_numeric_property_relation` (whose `float(None)` call raises a
`TypeError` that its `except ValueError` does not catch), returns
`Except String (Bool × Msg)`, and `validate_properties` propagates it.
Python `float` values are embedded as exact rationals (`Rat`); the
rendering of a float inside an f-string is abstracted by `ratStr`.
-/

/-- A property map: ordered `(key, value)` pairs, as iterated by a Python
dict built by `read_properties` (insertion order, unique keys). -/
abbrev Props := List (String × String)

/-- The second component of a Python rule result: `None`, a string, or the
tuple `(key, value)` that `validate_properties.py` returns on some success
paths. -/
inductive Msg where
  | none : Msg
  | str (s : String) : Msg
  | pair (k v : String) : Msg
deriving DecidableEq, Repr

/-- How a `Msg` renders inside a Python f-string (`{msg}`). -/
def Msg.fstr : Msg → String
  | Msg.none => "None"
  | Msg.str s => s
  | Msg.pair k v => "('" ++ k ++ "', '" ++ v ++ "')"

/-- How an optional string renders inside a Python f-string: `None` for an
absent value, the string itself otherwise. -/
def optStr (o : Option String) : String := o.getD "None"

/-- Python `repr` of a list of strings, as interpolated by f-strings such
as `expected {expected_values}`. -/
def pyListRepr (xs : List String) : String :=
  "[" ++ String.intercalate ", " (xs.map (fun x => "'" ++ x ++ "'")) ++ "]"

/-- Rendering of an embedded Python float inside an f-string.  The exact
decimal repr of a binary float is abstracted by the `Rat` instance. -/
def ratStr (q : Rat) : String := toString q

/-- Python `s.startswith(pre)`, over the character lists of the strings. -/
def pyStartsWith (s pre : String) : Bool := pre.toList.isPrefixOf s.toList

/-- Python `s.endswith(suf)`, over the character lists of the strings. -/
def pyEndsWith (s suf : String) : Bool := suf.toList.isSuffixOf s.toList

/-- One of the whitespace characters Python's `float` strips. -/
def isPySpace (c : Char) : Bool :=
  c = ' ' || c = '\t' || c = '\n' || c = '\r'

/-- Strip leading and trailing whitespace from a character list, as the
string conversion inside Python's `float` does. -/
def pyStrip (cs : List Char) : List Char :=
  ((cs.dropWhile isPySpace).reverse.dropWhile isPySpace).reverse

/-- Does `pat` occur as a contiguous sublist of `s`? -/
def subOccurs (pat : List Char) : List Char → Bool
  | [] => pat.isEmpty
  | c :: rest => pat.isPrefixOf (c :: rest) || subOccurs pat rest

/-- The value of a list of decimal digit characters. -/
def digitsVal (ds : List Char) : Nat :=
  List.foldl (fun n c => 10 * n + (c.toNat - 48)) 0 ds

/-- Exponent part of a Python float literal: optional sign then digits. -/
def parseExpPart (cs : List Char) : Option Int :=
  match cs with
  | '+' :: ds =>
      if !ds.isEmpty && ds.all Char.isDigit then some (digitsVal ds : Int) else Option.none
  | '-' :: ds =>
      if !ds.isEmpty && ds.all Char.isDigit then some (-(digitsVal ds : Int)) else Option.none
  | ds =>
      if !ds.isEmpty && ds.all Char.isDigit then some (digitsVal ds : Int) else Option.none

/-- Scale a rational by a power of ten, the effect of a float exponent. -/
def applyExpPart (q : Rat) (e : Int) : Rat :=
  if 0 ≤ e then q * (10 : Rat) ^ e.toNat else q / (10 : Rat) ^ (-e).toNat

/-- Unsigned part of a Python float literal: digits, an optional fraction,
an optional exponent; at least one digit before the exponent. -/
def parseUnsignedFloat (cs : List Char) : Option Rat :=
  let ip := cs.takeWhile Char.isDigit
  let rest1 := cs.drop ip.length
  match rest1 with
  | [] => if ip.isEmpty then Option.none else some (digitsVal ip : Rat)
  | '.' :: rest2 =>
    let fp := rest2.takeWhile Char.isDigit
    let rest3 := rest2.drop fp.length
    if ip.isEmpty && fp.isEmpty then Option.none
    else
      let base : Rat := (digitsVal ip : Rat) + (digitsVal fp : Rat) / ((10 : Rat) ^ fp.length)
      match rest3 with
      | [] => some base
      | 'e' :: es => (parseExpPart es).map (applyExpPart base)
      | 'E' :: es => (parseExpPart es).map (applyExpPart base)
      | _ => Option.none
  | 'e' :: es =>
      if ip.isEmpty then Option.none
      else (parseExpPart es).map (applyExpPart (digitsVal ip : Rat))
  | 'E' :: es =>
      if ip.isEmpty then Option.none
      else (parseExpPart es).map (applyExpPart (digitsVal ip : Rat))
  | _ => Option.none

/-- Python `float(s)` on finite decimal literals: surrounding whitespace is
stripped, then an optional sign and digits with optional fraction and
exponent.  (`inf`/`nan` literals and underscore digit separators are
outside the model; every value the repository's rules compare is a plain
decimal literal.)  Returns `none` where `float` raises `ValueError`. -/
def pyFloat? (s : String) : Option Rat :=
  match pyStrip s.toList with
  | '+' :: cs => parseUnsignedFloat cs
  | '-' :: cs => (parseUnsignedFloat cs).map Neg.neg
  | cs => parseUnsignedFloat cs

/-- The message of the uncaught `TypeError` that Python's `float(None)`
raises inside `validate_numeric_property_relation`. -/
def pyFloatNoneTypeError : String :=
  "TypeError: float() argument must be a string or a real number, not 'NoneType'"

/-- Does `value <= max_val` hold, where `max_val = none` embeds the Python
default `float('inf')`? -/
def leMax (q : Rat) (mx : Option Rat) : Bool :=
  match mx with
  | Option.none => true
  | some m => decide (q ≤ m)

/-- Rendering of the range upper bound in messages: `inf` for the default. -/
def maxStr (mx : Option Rat) : String :=
  match mx with
  | Option.none => "inf"
  | some m => ratStr m

/-- One regex atom: a literal character, `.` (any character but a newline),
or a character class given by inclusive ranges. -/
inductive Atom where
  | lit (c : Char) : Atom
  | any : Atom
  | cls (ranges : List (Char × Char)) : Atom
deriving DecidableEq, Repr

/-- Does the atom match one character (Python `re` semantics: `.` does not
match a newline)? -/
def Atom.matchesChar : Atom → Char → Bool
  | Atom.lit a, c => a = c
  | Atom.any, c => c != '\n'
  | Atom.cls rs, c => rs.any (fun r => decide (r.1 ≤ c) && decide (c ≤ r.2))

/-- The shape shared by every pattern the rule set compiles: a sequence of
one-character atoms, an optional final `+`-repeated atom, an optional `$`
anchor.  `source` keeps the Python pattern text for messages. -/
structure SimpleRE where
  atoms : List Atom
  plusAtom : Option Atom
  endAnchor : Bool
  source : String
deriving Repr

/-- Match the fixed-width atom sequence, returning the rest of the input. -/
def matchAtomsFrom : List Atom → List Char → Option (List Char)
  | [], cs => some cs
  | _ :: _, [] => Option.none
  | a :: as, c :: cs => if a.matchesChar c then matchAtomsFrom as cs else Option.none

/-- Python `re.match(pattern, value)` as a Boolean, for patterns of shape
`SimpleRE`: anchored at the start of the string, `+` is one-or-more, `$`
requires the match to reach the end. -/
def reMatch (p : SimpleRE) (value : String) : Bool :=
  match matchAtomsFrom p.atoms value.toList with
  | Option.none => false
  | some rest =>
    match p.plusAtom with
    | Option.none => !p.endAnchor || rest.isEmpty
    | some a =>
      if p.endAnchor then !rest.isEmpty && rest.all a.matchesChar
      else
        match rest with
        | [] => false
        | c :: _ => a.matchesChar c

/-- Atoms of a pattern segment with no metacharacters except `.`:
each `.` is `Atom.any`, every other character is a literal. -/
def litAtoms (s : String) : List Atom :=
  s.toList.map (fun c => if c = '.' then Atom.any else Atom.lit c)

/-- The class `[a-zA-Z0-9\.\-_]`. -/
def wordClassRanges : List (Char × Char) :=
  [('a', 'z'), ('A', 'Z'), ('0', '9'), ('.', '.'), ('-', '-'), ('_', '_')]

/-- Pattern `org.apache.kafka.common.security.plain.PlainLoginModule required.+`
(each unescaped `.` matches any character). -/
def jaasPattern : SimpleRE :=
  { atoms := litAtoms "org.apache.kafka.common.security.plain.PlainLoginModule required"
    plusAtom := some Atom.any
    endAnchor := false
    source := "org.apache.kafka.common.security.plain.PlainLoginModule required.+" }

/-- Pattern `^[a-zA-Z0-9\.\-_]+$`. -/
def appIdPattern : SimpleRE :=
  { atoms := []
    plusAtom := some (Atom.cls wordClassRanges)
    endAnchor := true
    source := "^[a-zA-Z0-9\\.\\-_]+$" }

/-- Pattern `^[a-zA-Z0-9\.\-\$_,\{\}]+$`. -/
def topicsPattern : SimpleRE :=
  { atoms := []
    plusAtom := some (Atom.cls (wordClassRanges ++
      [('$', '$'), (',', ','), (Char.ofNat 123, Char.ofNat 123), (Char.ofNat 125, Char.ofNat 125)]))
    endAnchor := true
    source := "^[a-zA-Z0-9\\.\\-\\$_,\\\x7b\\\x7d]+$" }

/-- Pattern `^[a-zA-Z0-9\.\-_]+$` as passed for the state directory. -/
def stateDirPattern : SimpleRE :=
  { atoms := []
    plusAtom := some (Atom.cls wordClassRanges)
    endAnchor := true
    source := "^[a-zA-Z0-9\\.\\-_]+$" }

/-- `expected_values`: the Python parameter that is either one string or a
list of strings (`isinstance(expected_values, list)`). -/
inductive StrOrList where
  | one (s : String) : StrOrList
  | many (xs : List String) : StrOrList
deriving DecidableEq, Repr

/-- The `isinstance` normalisation at the top of `validate_value_expected`. -/
def StrOrList.toList : StrOrList → List String
  | StrOrList.one s => [s]
  | StrOrList.many xs => xs

namespace VProps

/-- The dict comprehension inside `get_key_value_by_suffix`
(`validate_properties.py` lines 89-93): keys not starting with
`%<profile>` for any ignored profile, and ending with the suffix,
in map iteration order. -/
def filtered_keys (properties : Props) (key_suffix : String)
    (ignore_profiles : List String) : Props :=
  properties.filter (fun kv =>
    !(ignore_profiles.any (fun profile => pyStartsWith kv.1 ("%" ++ profile)))
      && pyEndsWith kv.1 key_suffix)

/-- `get_key_value_by_suffix` (`validate_properties.py` lines 85-96):
`key = next(iter(filtered_keys), None)` and
`return (key, filtered_keys.get(key)) if key else (None, None)`.
Note the Python truthiness test `if key`: a first filtered key equal to
the empty string is treated like `None`. -/
def get_key_value_by_suffix (properties : Props) (key_suffix : String)
    (ignore_profiles : List String) : Option String × Option String :=
  match (filtered_keys properties key_suffix ignore_profiles).head? with
  | some kv => if kv.1 = "" then (Option.none, Option.none) else (some kv.1, some kv.2)
  | Option.none => (Option.none, Option.none)

/-- `validate_property_not_set` (`validate_properties.py` lines 16-20). -/
def validate_property_not_set (properties : Props) (key_suffix : String) : Bool × Msg :=
  match properties.find? (fun kv => pyEndsWith kv.1 key_suffix) with
  | some kv =>
      (false, Msg.str ("Expected " ++ kv.1 ++ " to not be set. It is set to " ++ kv.2 ++ "."))
  | Option.none => (true, Msg.none)

/-- `validate_value_expected` (`validate_properties.py` lines 22-37).
Success with a found key returns the Python tuple `(key, value)`. -/
def validate_value_expected (properties : Props) (key_suffix : String)
    (expected_values : StrOrList) (treat_key_not_found_as_success : Bool)
    (ignore_profiles : List String) : Bool × Msg :=
  let expected := expected_values.toList
  match get_key_value_by_suffix properties key_suffix ignore_profiles with
  | (some key, v?) =>
    let value := v?.getD ""
    if expected.contains value then (true, Msg.pair key value)
    else
      (false, Msg.str (key ++ " found but set to '" ++ value ++ "', expected "
        ++ pyListRepr expected))
  | (Option.none, _) =>
    if treat_key_not_found_as_success then (true, Msg.none)
    else (false, Msg.str ("No key ending with '" ++ key_suffix ++ "' found"))

/-- `validate_value_regex` (`validate_properties.py` lines 39-54). -/
def validate_value_regex (properties : Props) (key_suffix : String)
    (regex_pattern : SimpleRE) (treat_key_not_found_as_success : Bool)
    (ignore_profiles : List String) : Bool × Msg :=
  match get_key_value_by_suffix properties key_suffix ignore_profiles with
  | (some key, v?) =>
    let value := v?.getD ""
    if reMatch regex_pattern value then (true, Msg.pair key value)
    else
      (false, Msg.str ("Value '" ++ value ++ "' for key '" ++ key
        ++ "' does not match the required pattern: " ++ regex_pattern.source))
  | (Option.none, _) =>
    if treat_key_not_found_as_success then (true, Msg.none)
    else (false, Msg.str ("No key ending with '" ++ key_suffix ++ "' found"))

/-- `is_numeric` (`validate_properties.py` lines 56-61): does `float(value)`
succeed? -/
def is_numeric (value : String) : Bool := (pyFloat? value).isSome

/-- `validate_value_numeric_range` (`validate_properties.py` lines 63-83).
`max_val = none` embeds the Python default `float('inf')`. -/
def validate_value_numeric_range (properties : Props) (key_suffix : String)
    (min_val : Rat) (max_val : Option Rat) (treat_key_not_found_as_success : Bool)
    (ignore_profiles : List String) : Bool × Msg :=
  match get_key_value_by_suffix properties key_suffix ignore_profiles with
  | (Option.none, _) =>
    if treat_key_not_found_as_success then (true, Msg.none)
    else (false, Msg.str ("No key ending with '" ++ key_suffix ++ "' found"))
  | (some key, v?) =>
    let value := v?.getD ""
    if !(is_numeric value) then
      (false, Msg.str ("Value '" ++ value ++ "' for key '" ++ key ++ "' is not numeric"))
    else
      let valueF := (pyFloat? value).getD 0
      if decide (min_val ≤ valueF) && leMax valueF max_val then (true, Msg.none)
      else
        (false, Msg.str ("Value '" ++ ratStr valueF ++ "' for key `" ++ key
          ++ "` is outside of the expected range [" ++ ratStr min_val ++ ","
          ++ maxStr max_val ++ "]"))

/-- `validate_numeric_property_relation` (`validate_properties.py` lines
98-118).  `float(value_1)` runs first; a `ValueError` from a non-numeric
string is caught, but when `value_2` is `None` the later `float(value_2)`
raises an uncaught `TypeError`, embedded as `Except.error`. -/
def validate_numeric_property_relation (properties : Props)
    (key_suffix_1 key_suffix_2 : String) (min_multiple max_multiple : Rat)
    (ignore_profiles : List String) : Except String (Bool × Msg) :=
  let kv1 := get_key_value_by_suffix properties key_suffix_1 ignore_profiles
  let kv2 := get_key_value_by_suffix properties key_suffix_2 ignore_profiles
  match kv1.2 with
  | Option.none =>
      Except.ok (true, Msg.str ("Property '" ++ key_suffix_1
        ++ "' is not configured; default is considered valid."))
  | some v1 =>
    match pyFloat? v1 with
    | Option.none =>
        Except.ok (false, Msg.str ("One of the properties '" ++ optStr kv1.1 ++ "'='"
          ++ v1 ++ "' or '" ++ optStr kv2.1 ++ "'='" ++ optStr kv2.2
          ++ "' is not a valid number."))
    | some n1 =>
      match kv2.2 with
      | Option.none => Except.error pyFloatNoneTypeError
      | some v2 =>
        match pyFloat? v2 with
        | Option.none =>
            Except.ok (false, Msg.str ("One of the properties '" ++ optStr kv1.1 ++ "'='"
              ++ v1 ++ "' or '" ++ optStr kv2.1 ++ "'='" ++ v2
              ++ "' is not a valid number."))
        | some n2 =>
          let min_val := n1 * min_multiple
          let max_val := n1 * max_multiple
          if decide (min_val ≤ n2) && decide (n2 ≤ max_val) then
            Except.ok (true, Msg.str ("Property '" ++ optStr kv2.1
              ++ "' is correctly set within the range [" ++ ratStr min_val ++ ", "
              ++ ratStr max_val ++ "] based on '" ++ optStr kv1.1 ++ "' value of "
              ++ ratStr n1 ++ "."))
          else
            Except.ok (false, Msg.str ("Property '" ++ optStr kv2.1 ++ "'='"
              ++ ratStr n2 ++ "' is not within the expected range [" ++ ratStr min_val
              ++ ", " ++ ratStr max_val ++ "] based on '" ++ optStr kv1.1
              ++ "' value of " ++ ratStr n1 ++ "."))

/-- `validate_exclusive_property_setting` (`validate_properties.py` lines
120-133): Python `^` on the two presence Booleans. -/
def validate_exclusive_property_setting (properties : Props)
    (key_suffix_1 key_suffix_2 : String) (ignore_profiles : List String) : Bool × Msg :=
  let key_1 := (get_key_value_by_suffix properties key_suffix_1 ignore_profiles).1
  let key_2 := (get_key_value_by_suffix properties key_suffix_2 ignore_profiles).1
  if Bool.xor key_1.isSome key_2.isSome then
    (true, Msg.str ("Exactly one property is set as expected: '"
      ++ (key_1.getD (optStr key_2)) ++ "' is set."))
  else if key_1.isSome && key_2.isSome then
    (false, Msg.str ("Both '" ++ optStr key_1 ++ "' and '" ++ optStr key_2
      ++ "' are set, but only one should be set."))
  else
    (false, Msg.str ("Neither of '" ++ key_suffix_1 ++ "' and '" ++ key_suffix_2
      ++ "' is set. One of the properties must be set."))

/-- `validate_conditional_numeric_range` (`validate_properties.py` lines
135-166). -/
def validate_conditional_numeric_range (properties : Props)
    (key_suffix_1 expected_value_1 key_suffix_2 : String) (min_val max_val : Rat)
    (ignore_profiles : List String) : Bool × Msg :=
  let kv1 := get_key_value_by_suffix properties key_suffix_1 ignore_profiles
  if kv1.2 != some expected_value_1 then
    (true, Msg.str ("Property '" ++ optStr kv1.1 ++ "' is not set to '"
      ++ expected_value_1 ++ "'; no validation for '" ++ key_suffix_2
      ++ "' is required."))
  else
    match get_key_value_by_suffix properties key_suffix_2 ignore_profiles with
    | (Option.none, _) =>
      (false, Msg.str ("Property with suffix '" ++ key_suffix_2
        ++ "' must be set when '" ++ optStr kv1.1 ++ "' is '" ++ optStr kv1.2 ++ "'."))
    | (some key_2, v2?) =>
      let value_2 := v2?.getD ""
      if !(is_numeric value_2) then
        (false, Msg.str ("Property '" ++ key_2 ++ "'='" ++ value_2
          ++ "' is not numeric and cannot be validated."))
      else
        let bNumeric := (pyFloat? value_2).getD 0
        if decide (min_val ≤ bNumeric) && decide (bNumeric ≤ max_val) then
          (true, Msg.str ("Property '" ++ key_2 ++ "'='" ++ value_2
            ++ "' is correctly set within the range [" ++ ratStr min_val ++ ", "
            ++ ratStr max_val ++ "]."))
        else
          (false, Msg.str ("Property '" ++ key_2 ++ "'='" ++ value_2
            ++ "' is not within the expected range [" ++ ratStr min_val ++ ", "
            ++ ratStr max_val ++ "], which applies when '" ++ optStr kv1.1
            ++ "' is '" ++ optStr kv1.2 ++ "'."))

end VProps

/-- `validate_properties` (`validate_properties.py` lines 169-302): the
fixed rule catalog, run top to bottom, each failing rule appending one
wrapped message to `errors`.  The uncaught `TypeError` that
`validate_numeric_property_relation` can raise propagates as
`Except.error`, aborting the remaining checks. -/
def VProps.validate_properties (properties : Props) : Except String (List String) :=
  let errors : List String := []
  let r1 := VProps.validate_value_numeric_range properties "max.poll.records" 1 (some 500) true ["dev", "test"]
  let errors := if r1.1 then errors else
    errors ++ ["Property 'max.poll.records' must be numeric and within range: " ++ r1.2.fstr]
  let r2 := VProps.validate_value_expected properties "kafka.security.protocol" (StrOrList.one "SASL_SSL") false ["dev", "test"]
  let errors := if r2.1 then errors else
    errors ++ ["kafka.security.protocol: " ++ r2.2.fstr]
  let r3 := VProps.validate_value_expected properties "kafka.sasl.mechanism" (StrOrList.one "PLAIN") false ["dev", "test"]
  let errors := if r3.1 then errors else
    errors ++ ["kafka.sasl.mechanism: " ++ r3.2.fstr]
  let r4 := VProps.validate_value_regex properties "kafka.sasl.jaas.config" jaasPattern false ["dev", "test"]
  let errors := if r4.1 then errors else
    errors ++ ["kafka.sasl.jaas.config: " ++ r4.2.fstr]
  let r5 := VProps.validate_value_expected properties "kafka-streams.producer.acks" (StrOrList.one "all") false ["dev", "test"]
  let errors := if r5.1 then errors else
    errors ++ ["kafka-streams.producer.acks NOT set to 'all'. " ++ r5.2.fstr]
  let r6 := VProps.validate_value_expected properties "kafka-streams.producer.compression.type" (StrOrList.many ["snappy", "zstd", "lz4"]) false ["dev", "test"]
  let errors := if r6.1 then errors else
    errors ++ ["kafka-streams.producer.compression.type: " ++ r6.2.fstr]
  match VProps.validate_numeric_property_relation properties "request.timeout.ms" "default.api.timeout.ms" (1.5 : Rat) 5 ["dev", "test"] with
  | Except.error e => Except.error e
  | Except.ok r7 =>
    let errors := if r7.1 then errors else
      errors ++ ["request.timeout.ms & default.api.timeout.ms: " ++ r7.2.fstr]
    let r8 := VProps.validate_value_numeric_range properties "kafka-streams.topic.min.insync.replicas" 3 (some 3) true ["dev", "test"]
    let errors := if r8.1 then errors else
      errors ++ ["kafka-streams.topic.min.insync.replicas NOT left at default or set to 2. " ++ r8.2.fstr]
    let r9 := VProps.validate_value_numeric_range properties "kafka-streams.replication.factor" 3 (some 3) true ["dev", "test"]
    let errors := if r9.1 then errors else
      errors ++ ["kafka-streams.replication.factor NOT left at default or set to 3. " ++ r9.2.fstr]
    let r10 := VProps.validate_value_numeric_range properties "kafka-streams.num.standby.replicas" 1 (some 2) false ["dev", "test"]
    let errors := if r10.1 then errors else
      errors ++ ["kafka-streams.num.standby.replicas NOT set to 1 or 2. " ++ r10.2.fstr]
    let r11 := VProps.validate_value_expected properties "kafka-streams.metrics.recording.level" (StrOrList.one "DEBUG") false ["dev", "test"]
    let errors := if r11.1 then errors else
      errors ++ ["kafka-streams.metrics.recording.level: " ++ r11.2.fstr]
    let r12 := VProps.validate_exclusive_property_setting properties "kafka-streams.bootstrap-servers" "kafka.bootstrap.servers" ["dev", "test"]
    let errors := if r12.1 then errors else
      errors ++ ["Bootstrap servers: " ++ r12.2.fstr]
    let r13 := VProps.validate_value_regex properties "kafka-streams.application-id" appIdPattern false ["dev", "test"]
    let errors := if r13.1 then errors else
      errors ++ ["Application id: " ++ r13.2.fstr]
    let r14 := VProps.validate_value_regex properties "kafka-streams.topics" topicsPattern false ["dev", "test"]
    let errors := if r14.1 then errors else
      errors ++ ["Required application topics: " ++ r14.2.fstr]
    let r15 := VProps.validate_value_regex properties "kafka-streams.state.dir" stateDirPattern false ["dev", "test"]
    let errors := if r15.1 then errors else
      errors ++ ["Explicit state directory: " ++ r15.2.fstr]
    let r16 := VProps.validate_conditional_numeric_range properties "kafka-streams.processing.guarantee" "exactly_once_v2" "kafka-streams.commit.interval.ms" 200 1000 ["dev", "test"]
    let errors := if r16.1 then errors else
      errors ++ ["Exactly-once and commit.interval.ms: " ++ r16.2.fstr]
    let r17 := VProps.validate_value_numeric_range properties "kafka-streams.statestore.cache.max.bytes" 1000000 Option.none true ["dev", "test"]
    let errors := if r17.1 then errors else
      errors ++ ["kafka-streams.statestore.cache.max.bytes NOT set to a high enough value for production. " ++ r17.2.fstr]
    let r18 := VProps.validate_property_not_set properties "kafka-streams.cache.max.bytes.buffering"
    let errors := if r18.1 then errors else
      errors ++ ["Deprecated configuration cache.max.bytes.buffering is used. Consider using statestore.cache.max.bytes instead. " ++ r18.2.fstr]
    let r19 := VProps.validate_property_not_set properties "kafka-streams.buffered.records.per.partition"
    let errors := if r19.1 then errors else
      errors ++ ["Deprecated configuration buffered.records.per.partition is used. Consider using input.buffer.max.bytes instead, where applicable. " ++ r19.2.fstr]
    let r20 := VProps.validate_value_numeric_range properties "kafka-streams.metadata.max.age.ms" 30000 (some 600000) true ["dev", "test"]
    let errors := if r20.1 then errors else
      errors ++ ["kafka-streams.metadata.max.age.ms: " ++ r20.2.fstr]
    let r21 := VProps.validate_value_expected properties "kafka-streams.processing.guarantee" (StrOrList.one "exactly_once_v2") true ["dev", "test"]
    let errors := if r21.1 then errors else
      errors ++ ["kafka-streams.processing.guarantee NOT set to 'exactly_once_v2'. " ++ r21.2.fstr]
    let r22 := VProps.validate_value_numeric_range properties "producer.linger.ms" 10 (some 200) false ["dev", "test"]
    let errors := if r22.1 then errors else
      errors ++ ["producer.linger.ms: " ++ r22.2.fstr]
    let r23 := VProps.validate_value_numeric_range properties "producer.batch.size" 32768 (some 262144) true ["dev", "test"]
    let errors := if r23.1 then errors else
      errors ++ ["producer.batch.size: " ++ r23.2.fstr]
    let r24 := VProps.validate_value_numeric_range properties "consumer.fetch.min.bytes" 1000 (some 10000) true ["dev", "test"]
    let errors := if r24.1 then errors else
      errors ++ ["consumer.fetch.min.bytes: " ++ r24.2.fstr]
    let r25 := VProps.validate_value_numeric_range properties "consumer.fetch.max.wait.ms" 100 (some 1000) true ["dev", "test"]
    let errors := if r25.1 then errors else
      errors ++ ["consumer.fetch.max.wait.ms: " ++ r25.2.fstr]
    let r26 := VProps.validate_value_expected properties "producer.enable.idempotence" (StrOrList.one "true") true ["dev", "test"]
    let errors := if r26.1 then errors else
      errors ++ ["producer.enable.idempotence: " ++ r26.2.fstr]
    Except.ok errors

/-- One catalog entry's outcome: the rule's success Boolean and the wrapped
message `validate_properties` would append were the rule failing. -/
def rulePair (r : Bool × Msg) (wrap : String) : Bool × String :=
  (r.1, wrap ++ r.2.fstr)

/-- The rule catalog of `validate_properties` as data: every rule's
outcome, in declaration order, given the numeric-relation rule's ordinary
result `r7`. -/
def VProps.ruleList (properties : Props) (r7 : Bool × Msg) : List (Bool × String) :=
  [rulePair (VProps.validate_value_numeric_range properties "max.poll.records" 1 (some 500) true ["dev", "test"])
       "Property 'max.poll.records' must be numeric and within range: ",
     rulePair (VProps.validate_value_expected properties "kafka.security.protocol" (StrOrList.one "SASL_SSL") false ["dev", "test"])
       "kafka.security.protocol: ",
     rulePair (VProps.validate_value_expected properties "kafka.sasl.mechanism" (StrOrList.one "PLAIN") false ["dev", "test"])
       "kafka.sasl.mechanism: ",
     rulePair (VProps.validate_value_regex properties "kafka.sasl.jaas.config" jaasPattern false ["dev", "test"])
       "kafka.sasl.jaas.config: ",
     rulePair (VProps.validate_value_expected properties "kafka-streams.producer.acks" (StrOrList.one "all") false ["dev", "test"])
       "kafka-streams.producer.acks NOT set to 'all'. ",
     rulePair (VProps.validate_value_expected properties "kafka-streams.producer.compression.type" (StrOrList.many ["snappy", "zstd", "lz4"]) false ["dev", "test"])
       "kafka-streams.producer.compression.type: ",
     rulePair r7 "request.timeout.ms & default.api.timeout.ms: ",
     rulePair (VProps.validate_value_numeric_range properties "kafka-streams.topic.min.insync.replicas" 3 (some 3) true ["dev", "test"])
       "kafka-streams.topic.min.insync.replicas NOT left at default or set to 2. ",
     rulePair (VProps.validate_value_numeric_range properties "kafka-streams.replication.factor" 3 (some 3) true ["dev", "test"])
       "kafka-streams.replication.factor NOT left at default or set to 3. ",
     rulePair (VProps.validate_value_numeric_range properties "kafka-streams.num.standby.replicas" 1 (some 2) false ["dev", "test"])
       "kafka-streams.num.standby.replicas NOT set to 1 or 2. ",
     rulePair (VProps.validate_value_expected properties "kafka-streams.metrics.recording.level" (StrOrList.one "DEBUG") false ["dev", "test"])
       "kafka-streams.metrics.recording.level: ",
     rulePair (VProps.validate_exclusive_property_setting properties "kafka-streams.bootstrap-servers" "kafka.bootstrap.servers" ["dev", "test"])
       "Bootstrap servers: ",
     rulePair (VProps.validate_value_regex properties "kafka-streams.application-id" appIdPattern false ["dev", "test"])
       "Application id: ",
     rulePair (VProps.validate_value_regex properties "kafka-streams.topics" topicsPattern false ["dev", "test"])
       "Required application topics: ",
     rulePair (VProps.validate_value_regex properties "kafka-streams.state.dir" stateDirPattern false ["dev", "test"])
       "Explicit state directory: ",
     rulePair (VProps.validate_conditional_numeric_range properties "kafka-streams.processing.guarantee" "exactly_once_v2" "kafka-streams.commit.interval.ms" 200 1000 ["dev", "test"])
       "Exactly-once and commit.interval.ms: ",
     rulePair (VProps.validate_value_numeric_range properties "kafka-streams.statestore.cache.max.bytes" 1000000 Option.none true ["dev", "test"])
       "kafka-streams.statestore.cache.max.bytes NOT set to a high enough value for production. ",
     rulePair (VProps.validate_property_not_set properties "kafka-streams.cache.max.bytes.buffering")
       "Deprecated configuration cache.max.bytes.buffering is used. Consider using statestore.cache.max.bytes instead. ",
     rulePair (VProps.validate_property_not_set properties "kafka-streams.buffered.records.per.partition")
       "Deprecated configuration buffered.records.per.partition is used. Consider using input.buffer.max.bytes instead, where applicable. ",
     rulePair (VProps.validate_value_numeric_range properties "kafka-streams.metadata.max.age.ms" 30000 (some 600000) true ["dev", "test"])
       "kafka-streams.metadata.max.age.ms: ",
     rulePair (VProps.validate_value_expected properties "kafka-streams.processing.guarantee" (StrOrList.one "exactly_once_v2") true ["dev", "test"])
       "kafka-streams.processing.guarantee NOT set to 'exactly_once_v2'. ",
     rulePair (VProps.validate_value_numeric_range properties "producer.linger.ms" 10 (some 200) false ["dev", "test"])
       "producer.linger.ms: ",
     rulePair (VProps.validate_value_numeric_range properties "producer.batch.size" 32768 (some 262144) true ["dev", "test"])
       "producer.batch.size: ",
     rulePair (VProps.validate_value_numeric_range properties "consumer.fetch.min.bytes" 1000 (some 10000) true ["dev", "test"])
       "consumer.fetch.min.bytes: ",
     rulePair (VProps.validate_value_numeric_range properties "consumer.fetch.max.wait.ms" 100 (some 1000) true ["dev", "test"])
       "consumer.fetch.max.wait.ms: ",
   rulePair (VProps.validate_value_expected properties "producer.enable.idempotence" (StrOrList.one "true") true ["dev", "test"])
     "producer.enable.idempotence: "]

/-- The rule catalog of `validate_properties` as data: the outcome of every
rule, in declaration order.  The numeric-relation rule's exception
propagates. -/
def VProps.ruleOutcomes (properties : Props) : Except String (List (Bool × String)) :=
  match VProps.validate_numeric_property_relation properties "request.timeout.ms" "default.api.timeout.ms" (1.5 : Rat) 5 ["dev", "test"] with
  | Except.error e => Except.error e
  | Except.ok r7 => Except.ok (VProps.ruleList properties r7)

/-- The spec's aggregation contract: one message per failing rule, in rule
order; passing rules contribute nothing. -/
def failuresInOrder : List (Bool × String) → List String
  | [] => []
  | (ok, m) :: rest => if ok then failuresInOrder rest else m :: failuresInOrder rest

namespace Vals

/-- The dict comprehension inside `get_key_value_by_suffix`
(`validations.py` lines 143-147). -/
def filtered_keys (properties : Props) (key_suffix : String)
    (ignore_profiles : List String) : Props :=
  properties.filter (fun kv =>
    !(ignore_profiles.any (fun profile => pyStartsWith kv.1 ("%" ++ profile)))
      && pyEndsWith kv.1 key_suffix)

/-- `get_key_value_by_suffix` (`validations.py` lines 127-150), identical
to the `validate_properties.py` copy. -/
def get_key_value_by_suffix (properties : Props) (key_suffix : String)
    (ignore_profiles : List String) : Option String × Option String :=
  match (filtered_keys properties key_suffix ignore_profiles).head? with
  | some kv => if kv.1 = "" then (Option.none, Option.none) else (some kv.1, some kv.2)
  | Option.none => (Option.none, Option.none)

/-- `validate_property_not_set` (`validations.py` lines 5-20). -/
def validate_property_not_set (properties : Props) (key_suffix : String) : Bool × Msg :=
  match properties.find? (fun kv => pyEndsWith kv.1 key_suffix) with
  | some kv =>
      (false, Msg.str ("Expected " ++ kv.1 ++ " to not be set. It is set to " ++ kv.2 ++ "."))
  | Option.none => (true, Msg.none)

/-- `validate_value_expected` (`validations.py` lines 22-51): same logic as
the `validate_properties.py` copy, different success and failure texts. -/
def validate_value_expected (properties : Props) (key_suffix : String)
    (expected_values : StrOrList) (treat_key_not_found_as_success : Bool)
    (ignore_profiles : List String) : Bool × Msg :=
  let expected := expected_values.toList
  match get_key_value_by_suffix properties key_suffix ignore_profiles with
  | (some key, v?) =>
    let value := v?.getD ""
    if expected.contains value then
      (true, Msg.str (key ++ " set to '" ++ value
        ++ "', which is included in the expected values: " ++ pyListRepr expected))
    else
      (false, Msg.str (key ++ " found but set to '" ++ value ++ "', expected one of "
        ++ pyListRepr expected))
  | (Option.none, _) =>
    if treat_key_not_found_as_success then
      (true, Msg.str ("No key ending with '" ++ key_suffix ++ "' found"))
    else (false, Msg.str ("No key ending with '" ++ key_suffix ++ "' found"))

/-- `validate_value_regex` (`validations.py` lines 53-81): same logic as
the `validate_properties.py` copy, different success text. -/
def validate_value_regex (properties : Props) (key_suffix : String)
    (regex_pattern : SimpleRE) (treat_key_not_found_as_success : Bool)
    (ignore_profiles : List String) : Bool × Msg :=
  match get_key_value_by_suffix properties key_suffix ignore_profiles with
  | (some key, v?) =>
    let value := v?.getD ""
    if reMatch regex_pattern value then
      (true, Msg.str ("Value '" ++ value ++ "' for key '" ++ key
        ++ "' matches the required pattern: " ++ regex_pattern.source))
    else
      (false, Msg.str ("Value '" ++ value ++ "' for key '" ++ key
        ++ "' does not match the required pattern: " ++ regex_pattern.source))
  | (Option.none, _) =>
    if treat_key_not_found_as_success then (true, Msg.none)
    else (false, Msg.str ("No key ending with '" ++ key_suffix ++ "' found"))

/-- `is_numeric` (`validations.py` lines 83-88). -/
def is_numeric (value : String) : Bool := (pyFloat? value).isSome

/-- `validate_value_numeric_range` (`validations.py` lines 90-125): same
logic as the `validate_properties.py` copy; the absent-key branches and the
in-range branch carry messages instead of `None`. -/
def validate_value_numeric_range (properties : Props) (key_suffix : String)
    (min_val : Rat) (max_val : Option Rat) (treat_key_not_found_as_success : Bool)
    (ignore_profiles : List String) : Bool × Msg :=
  match get_key_value_by_suffix properties key_suffix ignore_profiles with
  | (Option.none, _) =>
    if treat_key_not_found_as_success then
      (true, Msg.str ("No key ending with '" ++ key_suffix ++ "' found"))
    else (false, Msg.str ("No key ending with '" ++ key_suffix ++ "' found"))
  | (some key, v?) =>
    let value := v?.getD ""
    if !(is_numeric value) then
      (false, Msg.str ("Value '" ++ value ++ "' for key '" ++ key ++ "' is not numeric"))
    else
      let valueF := (pyFloat? value).getD 0
      if decide (min_val ≤ valueF) && leMax valueF max_val then
        (true, Msg.str ("Value '" ++ ratStr valueF ++ "' for key `" ++ key
          ++ "` is within the expected range [" ++ ratStr min_val ++ ","
          ++ maxStr max_val ++ "]"))
      else
        (false, Msg.str ("Value '" ++ ratStr valueF ++ "' for key `" ++ key
          ++ "` is outside of the expected range [" ++ ratStr min_val ++ ","
          ++ maxStr max_val ++ "]"))

/-- `validate_numeric_property_relation` (`validations.py` lines 152-185),
identical to the `validate_properties.py` copy, with the same uncaught
`TypeError` when the second property is absent. -/
def validate_numeric_property_relation (properties : Props)
    (key_suffix_1 key_suffix_2 : String) (min_multiple max_multiple : Rat)
    (ignore_profiles : List String) : Except String (Bool × Msg) :=
  let kv1 := get_key_value_by_suffix properties key_suffix_1 ignore_profiles
  let kv2 := get_key_value_by_suffix properties key_suffix_2 ignore_profiles
  match kv1.2 with
  | Option.none =>
      Except.ok (true, Msg.str ("Property '" ++ key_suffix_1
        ++ "' is not configured; default is considered valid."))
  | some v1 =>
    match pyFloat? v1 with
    | Option.none =>
        Except.ok (false, Msg.str ("One of the properties '" ++ optStr kv1.1 ++ "'='"
          ++ v1 ++ "' or '" ++ optStr kv2.1 ++ "'='" ++ optStr kv2.2
          ++ "' is not a valid number."))
    | some n1 =>
      match kv2.2 with
      | Option.none => Except.error pyFloatNoneTypeError
      | some v2 =>
        match pyFloat? v2 with
        | Option.none =>
            Except.ok (false, Msg.str ("One of the properties '" ++ optStr kv1.1 ++ "'='"
              ++ v1 ++ "' or '" ++ optStr kv2.1 ++ "'='" ++ v2
              ++ "' is not a valid number."))
        | some n2 =>
          let min_val := n1 * min_multiple
          let max_val := n1 * max_multiple
          if decide (min_val ≤ n2) && decide (n2 ≤ max_val) then
            Except.ok (true, Msg.str ("Property '" ++ optStr kv2.1
              ++ "' is correctly set within the range [" ++ ratStr min_val ++ ", "
              ++ ratStr max_val ++ "] based on '" ++ optStr kv1.1 ++ "' value of "
              ++ ratStr n1 ++ "."))
          else
            Except.ok (false, Msg.str ("Property '" ++ optStr kv2.1 ++ "'='"
              ++ ratStr n2 ++ "' is not within the expected range [" ++ ratStr min_val
              ++ ", " ++ ratStr max_val ++ "] based on '" ++ optStr kv1.1
              ++ "' value of " ++ ratStr n1 ++ "."))

/-- `validate_exclusive_property_setting` (`validations.py` lines 187-211),
identical to the `validate_properties.py` copy. -/
def validate_exclusive_property_setting (properties : Props)
    (key_suffix_1 key_suffix_2 : String) (ignore_profiles : List String) : Bool × Msg :=
  let key_1 := (get_key_value_by_suffix properties key_suffix_1 ignore_profiles).1
  let key_2 := (get_key_value_by_suffix properties key_suffix_2 ignore_profiles).1
  if Bool.xor key_1.isSome key_2.isSome then
    (true, Msg.str ("Exactly one property is set as expected: '"
      ++ (key_1.getD (optStr key_2)) ++ "' is set."))
  else if key_1.isSome && key_2.isSome then
    (false, Msg.str ("Both '" ++ optStr key_1 ++ "' and '" ++ optStr key_2
      ++ "' are set, but only one should be set."))
  else
    (false, Msg.str ("Neither of '" ++ key_suffix_1 ++ "' and '" ++ key_suffix_2
      ++ "' is set. One of the properties must be set."))

/-- `validate_conditional_numeric_range` (`validations.py` lines 213-244),
identical to the `validate_properties.py` copy. -/
def validate_conditional_numeric_range (properties : Props)
    (key_suffix_1 expected_value_1 key_suffix_2 : String) (min_val max_val : Rat)
    (ignore_profiles : List String) : Bool × Msg :=
  let kv1 := get_key_value_by_suffix properties key_suffix_1 ignore_profiles
  if kv1.2 != some expected_value_1 then
    (true, Msg.str ("Property '" ++ optStr kv1.1 ++ "' is not set to '"
      ++ expected_value_1 ++ "'; no validation for '" ++ key_suffix_2
      ++ "' is required."))
  else
    match get_key_value_by_suffix properties key_suffix_2 ignore_profiles with
    | (Option.none, _) =>
      (false, Msg.str ("Property with suffix '" ++ key_suffix_2
        ++ "' must be set when '" ++ optStr kv1.1 ++ "' is '" ++ optStr kv1.2 ++ "'."))
    | (some key_2, v2?) =>
      let value_2 := v2?.getD ""
      if !(is_numeric value_2) then
        (false, Msg.str ("Property '" ++ key_2 ++ "'='" ++ value_2
          ++ "' is not numeric and cannot be validated."))
      else
        let bNumeric := (pyFloat? value_2).getD 0
        if decide (min_val ≤ bNumeric) && decide (bNumeric ≤ max_val) then
          (true, Msg.str ("Property '" ++ key_2 ++ "'='" ++ value_2
            ++ "' is correctly set within the range [" ++ ratStr min_val ++ ", "
            ++ ratStr max_val ++ "]."))
        else
          (false, Msg.str ("Property '" ++ key_2 ++ "'='" ++ value_2
            ++ "' is not within the expected range [" ++ ratStr min_val ++ ", "
            ++ ratStr max_val ++ "], which applies when '" ++ optStr kv1.1
            ++ "' is '" ++ optStr kv1.2 ++ "'."))

end Vals

/-- Modelled from the claim and spec wording (section 4.1): filter out
every key whose name starts with a percent sign and an ignored profile,
then among the remaining keys return the first (in map iteration order)
whose name ends with the suffix, together with its value; `(none, none)`
when no remaining key matches. -/
def resolve_spec (properties : Props) (key_suffix : String)
    (ignore_profiles : List String) : Option String × Option String :=
  match (properties.filter (fun kv =>
      !(ignore_profiles.any (fun profile =>
        pyStartsWith kv.1 ("%" ++ profile))))).find?
      (fun kv => pyEndsWith kv.1 key_suffix) with
  | some kv => (some kv.1, some kv.2)
  | Option.none => (Option.none, Option.none)

/-- Does `pat` occur as a substring of `s` (used to state which error
messages reference a given property name or value)? -/
def containsSub (s pat : String) : Bool := subOccurs pat.toList s.toList

/-- Finding in a filtered list is finding with the conjoined predicate. -/
theorem filter_find?_eq {α : Type} (l : List α) (p q : α → Bool) :
    (l.filter p).find? q = (l.filter (fun x => p x && q x)).head? := by
  induction l with
  | nil => rfl
  | cons x xs ih =>
    by_cases hp : p x
    · by_cases hq : q x
      · simp [List.filter_cons, hp, hq, List.find?_cons]
      · simp [List.filter_cons, hp, hq, List.find?_cons, ih]
    · simp [List.filter_cons, hp, ih]

/-- The resolver either reports absence on both components or yields a
non-empty key together with its value. -/
theorem VProps.gkv_cases (P : Props) (s : String) (ign : List String) :
    VProps.get_key_value_by_suffix P s ign = (Option.none, Option.none)
      ∨ ∃ k v, k ≠ "" ∧ VProps.get_key_value_by_suffix P s ign = (some k, some v) := by
  unfold VProps.get_key_value_by_suffix
  cases h : (VProps.filtered_keys P s ign).head? with
  | none => left; rfl
  | some kv =>
    by_cases hk : kv.1 = ""
    · left; simp [hk]
    · right; exact ⟨kv.1, kv.2, hk, by simp [hk]⟩

/-- C1, counterexample.  The claim says the resolver returns the first
remaining key ending with the suffix and is absent only when no remaining
key matches; on the map with keys `""` and `"a"` and the empty suffix both
keys match, the claimed behaviour (`resolve_spec`) returns the first match,
but the code returns `(None, None)` because of the Python truthiness test
`if key`. -/
theorem resolver_empty_key_shadowing :
    VProps.get_key_value_by_suffix [("", "v"), ("a", "w")] "" [] = (Option.none, Option.none)
      ∧ resolve_spec [("", "v"), ("a", "w")] "" [] = (some "", some "v")
      ∧ ((Option.none, Option.none) : Option String × Option String) ≠ (some "", some "v") := by
  refine ⟨by decide, by decide, by decide⟩

/-- C1, amended.  Whenever the first remaining key ending with the suffix
is not the empty string, `get_key_value_by_suffix` is exactly the
resolver the claim describes: filter out ignored-profile keys, return the
first remaining key ending with the suffix together with its value, and
`(None, None)` when no remaining key matches.  (When that first match is
the empty-string key the code instead returns `(None, None)`, see the
counterexample.) -/
theorem resolver_is_first_match (P : Props) (s : String) (ign : List String)
    (h : (VProps.filtered_keys P s ign).head?.map Prod.fst ≠ some "") :
    VProps.get_key_value_by_suffix P s ign = resolve_spec P s ign := by
  unfold VProps.filtered_keys at h
  unfold VProps.get_key_value_by_suffix resolve_spec VProps.filtered_keys
  rw [filter_find?_eq]
  cases hh : (P.filter (fun kv =>
      !(ign.any (fun profile => pyStartsWith kv.1 ("%" ++ profile)))
        && pyEndsWith kv.1 s)).head? with
  | none => rfl
  | some kv =>
    rw [hh] at h
    have hk : kv.1 ≠ "" := by
      intro he
      exact h (by simp [he])
    simp [hk]

/-- C1, witness for the amended theorem at a concrete map: the first key
ending in `acks` outside the ignored `dev` profile is `b.acks`. -/
theorem resolver_is_first_match_witness :
    (VProps.filtered_keys [("%dev.a.acks", "x"), ("b.acks", "y"), ("c.acks", "z")] "acks" ["dev"]).head?.map Prod.fst ≠ some ""
      ∧ VProps.get_key_value_by_suffix [("%dev.a.acks", "x"), ("b.acks", "y"), ("c.acks", "z")] "acks" ["dev"]
          = resolve_spec [("%dev.a.acks", "x"), ("b.acks", "y"), ("c.acks", "z")] "acks" ["dev"] :=
  ⟨by decide,
   resolver_is_first_match [("%dev.a.acks", "x"), ("b.acks", "y"), ("c.acks", "z")] "acks" ["dev"] (by decide)⟩

/-- C2.  With `request.timeout.ms` present and numeric and
`default.api.timeout.ms` absent, `validate_numeric_property_relation`
does not return a `(False, message)` result: `float(None)` raises a
`TypeError` that the `except ValueError` handler does not catch, so the
exception escapes (in both copies of the module). -/
theorem relation_raises_on_missing_second_key :
    VProps.validate_numeric_property_relation [("request.timeout.ms", "100")]
        "request.timeout.ms" "default.api.timeout.ms" (1.5 : Rat) 5 ["dev", "test"]
      = Except.error pyFloatNoneTypeError
    ∧ Vals.validate_numeric_property_relation [("request.timeout.ms", "100")]
        "request.timeout.ms" "default.api.timeout.ms" (1.5 : Rat) 5 ["dev", "test"]
      = Except.error pyFloatNoneTypeError := by
  exact ⟨rfl, rfl⟩

/-- C9.  A returned key is never the empty string and never starts with
`%<profile>` for an ignored profile; the prefix test requires no dot after
the profile name, so ignoring `dev` also excludes `%development.foo`; and
an empty-string key is never returned even when it ends with the suffix. -/
theorem resolver_profile_prefix_and_empty_key :
    (∀ (P : Props) (s : String) (ign : List String) (k v : String),
        VProps.get_key_value_by_suffix P s ign = (some k, some v) →
          k ≠ "" ∧ ∀ p ∈ ign, ¬ pyStartsWith k ("%" ++ p))
    ∧ VProps.get_key_value_by_suffix [("%development.foo", "x")] "foo" ["dev"]
        = (Option.none, Option.none)
    ∧ VProps.get_key_value_by_suffix [("", "v")] "" []
        = (Option.none, Option.none) := by
  refine ⟨?_, by decide, by decide⟩
  intro P s ign k v h
  unfold VProps.get_key_value_by_suffix at h
  cases hh : (VProps.filtered_keys P s ign).head? with
  | none => rw [hh] at h; exact absurd h (by simp)
  | some kv =>
    rw [hh] at h
    by_cases hk : kv.1 = ""
    · simp [hk] at h
    · simp only [hk, if_false, ite_false, if_neg, Prod.mk.injEq, Option.some.injEq] at h
      obtain ⟨hkk, hvv⟩ := h
      have hmem : kv ∈ VProps.filtered_keys P s ign := by
        cases hl : VProps.filtered_keys P s ign with
        | nil => rw [hl] at hh; exact absurd hh (by simp)
        | cons y ys =>
          rw [hl] at hh
          simp only [List.head?_cons, Option.some.injEq] at hh
          rw [hh]
          exact List.mem_cons_self kv ys
      unfold VProps.filtered_keys at hmem
      have hpred := List.of_mem_filter hmem
      simp only [Bool.and_eq_true, Bool.not_eq_true', List.any_eq_false] at hpred
      refine ⟨hkk ▸ hk, ?_⟩
      intro p hp
      rw [← hkk]
      simpa using hpred.1 p hp

/-- C9, witness: at a concrete map the resolved key `b.foo` ends with the
suffix, is non-empty and carries no ignored-profile prefix. -/
theorem resolver_profile_prefix_and_empty_key_witness :
    VProps.get_key_value_by_suffix [("%dev.a.foo", "1"), ("b.foo", "2")] "foo" ["dev"]
        = (some "b.foo", some "2")
      ∧ ("b.foo" ≠ "" ∧ ∀ p ∈ ["dev"], ¬ pyStartsWith "b.foo" ("%" ++ p)) :=
  ⟨by decide,
   resolver_profile_prefix_and_empty_key.1 [("%dev.a.foo", "1"), ("b.foo", "2")] "foo" ["dev"]
     "b.foo" "2" (by decide)⟩

/-- When profile filtering leaves no key ending with the suffix, the
resolver reports absence. -/
theorem VProps.gkv_of_filtered_nil (P : Props) (s : String) (ign : List String)
    (h : VProps.filtered_keys P s ign = []) :
    VProps.get_key_value_by_suffix P s ign = (Option.none, Option.none) := by
  unfold VProps.get_key_value_by_suffix
  rw [h]
  rfl

/-- C3.  When the suffix resolves to a present value `v`,
`validate_value_numeric_range` succeeds exactly when `v` parses as a float
and the parsed value lies in `[min_val, max_val]`; a non-parseable `v`
fails whatever the bounds (there is then no such parsed value). -/
theorem numeric_range_present_iff (P : Props) (s k v : String) (mn mx : Rat)
    (flag : Bool) (ign : List String)
    (h : VProps.get_key_value_by_suffix P s ign = (some k, some v)) :
    ((VProps.validate_value_numeric_range P s mn (some mx) flag ign).1 = true
      ↔ ∃ q, pyFloat? v = some q ∧ mn ≤ q ∧ q ≤ mx) := by
  unfold VProps.validate_value_numeric_range
  rw [h]
  cases hq : pyFloat? v with
  | none => simp [VProps.is_numeric, hq]
  | some q =>
    by_cases hA : mn ≤ q
    · by_cases hB : q ≤ mx
      · simp [VProps.is_numeric, hq, leMax, hA, hB]
      · simp [VProps.is_numeric, hq, leMax, hA, hB]
    · simp [VProps.is_numeric, hq, leMax, hA]

/-- C3, witness: `a.size=5` resolves for suffix `size` and the range check
against `[1, 10]` is characterised by the parsed value of `5`. -/
theorem numeric_range_present_iff_witness :
    VProps.get_key_value_by_suffix [("a.size", "5")] "size" [] = (some "a.size", some "5")
      ∧ ((VProps.validate_value_numeric_range [("a.size", "5")] "size" 1 (some 10) false []).1 = true
          ↔ ∃ q, pyFloat? "5" = some q ∧ (1 : Rat) ≤ q ∧ q ≤ 10) :=
  ⟨by decide,
   numeric_range_present_iff [("a.size", "5")] "size" "a.size" "5" 1 10 false [] (by decide)⟩

/-- C4.  `validate_exclusive_property_setting` succeeds exactly when one of
the two suffixes resolves and the other does not (logical XOR); with both
present it fails with the `are set, but only one should be set` message,
with neither present it fails with the distinguishable `Neither of`
message. -/
theorem exclusive_exactly_one (P : Props) (s1 s2 : String) (ign : List String) :
    ((VProps.validate_exclusive_property_setting P s1 s2 ign).1 = true
      ↔ ((VProps.get_key_value_by_suffix P s1 ign).1.isSome
           ≠ (VProps.get_key_value_by_suffix P s2 ign).1.isSome))
    ∧ ((VProps.get_key_value_by_suffix P s1 ign).1.isSome = true →
        (VProps.get_key_value_by_suffix P s2 ign).1.isSome = true →
          VProps.validate_exclusive_property_setting P s1 s2 ign
            = (false, Msg.str ("Both '" ++ optStr (VProps.get_key_value_by_suffix P s1 ign).1
                ++ "' and '" ++ optStr (VProps.get_key_value_by_suffix P s2 ign).1
                ++ "' are set, but only one should be set.")))
    ∧ ((VProps.get_key_value_by_suffix P s1 ign).1 = Option.none →
        (VProps.get_key_value_by_suffix P s2 ign).1 = Option.none →
          VProps.validate_exclusive_property_setting P s1 s2 ign
            = (false, Msg.str ("Neither of '" ++ s1 ++ "' and '" ++ s2
                ++ "' is set. One of the properties must be set."))) := by
  refine ⟨?_, ?_, ?_⟩
  · unfold VProps.validate_exclusive_property_setting
    cases h1 : (VProps.get_key_value_by_suffix P s1 ign).1 <;>
      cases h2 : (VProps.get_key_value_by_suffix P s2 ign).1 <;>
        simp [h1, h2, Bool.xor]
  · intro h1 h2
    unfold VProps.validate_exclusive_property_setting
    simp [h1, h2]
  · intro h1 h2
    unfold VProps.validate_exclusive_property_setting
    simp [h1, h2]

/-- C4, witness: with `a.x` and `b.y` both present the check fails with
the `both are set` message. -/
theorem exclusive_exactly_one_witness :
    VProps.validate_exclusive_property_setting [("a.x", "1"), ("b.y", "2")] "x" "y" []
      = (false, Msg.str "Both 'a.x' and 'b.y' are set, but only one should be set.") :=
  (exclusive_exactly_one [("a.x", "1"), ("b.y", "2")] "x" "y" []).2.1 (by decide) (by decide)

/-- C5.  `validate_conditional_numeric_range` succeeds whenever the first
suffix's resolved value differs from the trigger (also when it is absent);
when the trigger value is present, the check succeeds exactly when the
second suffix resolves to a value that parses and lies in
`[min_val, max_val]` (so it fails when the key is missing and when the
value is non-numeric). -/
theorem conditional_range_spec (P : Props) (s1 exp s2 : String) (mn mx : Rat)
    (ign : List String) :
    ((VProps.get_key_value_by_suffix P s1 ign).2 ≠ some exp →
        (VProps.validate_conditional_numeric_range P s1 exp s2 mn mx ign).1 = true)
    ∧ ((VProps.get_key_value_by_suffix P s1 ign).2 = some exp →
        ((VProps.validate_conditional_numeric_range P s1 exp s2 mn mx ign).1 = true
          ↔ ∃ k2 v2 q, VProps.get_key_value_by_suffix P s2 ign = (some k2, some v2)
              ∧ pyFloat? v2 = some q ∧ mn ≤ q ∧ q ≤ mx)) := by
  constructor
  · intro h
    unfold VProps.validate_conditional_numeric_range
    simp [h]
  · intro h
    unfold VProps.validate_conditional_numeric_range
    rcases VProps.gkv_cases P s2 ign with h2 | ⟨k2, v2, hk2, h2⟩
    · rw [h2]
      simp [h, h2]
    · rw [h2]
      cases hq : pyFloat? v2 with
      | none => simp [h, h2, VProps.is_numeric, hq]
      | some q =>
        by_cases hA : mn ≤ q
        · by_cases hB : q ≤ mx
          · simp [h, h2, VProps.is_numeric, hq, hA, hB]
            exact ⟨k2, v2, ⟨rfl, rfl⟩, q, hq, hA, hB⟩
          · simp [h, h2, VProps.is_numeric, hq, hA, hB]
            exact lt_of_not_le hB
        · simp [h, h2, VProps.is_numeric, hq, hA]

/-- C5, witness: with the trigger value present, the check on the second
suffix is characterised by its parsed value. -/
theorem conditional_range_spec_witness :
    (VProps.get_key_value_by_suffix [("a.guarantee", "eos"), ("b.interval", "500")] "guarantee" []).2
        = some "eos"
      ∧ ((VProps.validate_conditional_numeric_range [("a.guarantee", "eos"), ("b.interval", "500")]
            "guarantee" "eos" "interval" 200 1000 []).1 = true
          ↔ ∃ k2 v2 q,
              VProps.get_key_value_by_suffix [("a.guarantee", "eos"), ("b.interval", "500")] "interval" []
                  = (some k2, some v2)
                ∧ pyFloat? v2 = some q ∧ (200 : Rat) ≤ q ∧ q ≤ 1000) :=
  ⟨by decide,
   (conditional_range_spec [("a.guarantee", "eos"), ("b.interval", "500")]
      "guarantee" "eos" "interval" 200 1000 []).2 (by decide)⟩

/-- C6.  When profile filtering leaves no key ending with the suffix, each
flag-taking check (expected-value, regex-match, numeric-range) succeeds
when `treat_key_not_found_as_success` is true and fails with the
`No key ending with ... found` message when it is false. -/
theorem absent_key_flag_behavior (P : Props) (s : String) (ign : List String)
    (ev : StrOrList) (pat : SimpleRE) (mn : Rat) (mx : Option Rat)
    (h : VProps.filtered_keys P s ign = []) :
    VProps.validate_value_expected P s ev true ign = (true, Msg.none)
      ∧ VProps.validate_value_expected P s ev false ign
          = (false, Msg.str ("No key ending with '" ++ s ++ "' found"))
      ∧ VProps.validate_value_regex P s pat true ign = (true, Msg.none)
      ∧ VProps.validate_value_regex P s pat false ign
          = (false, Msg.str ("No key ending with '" ++ s ++ "' found"))
      ∧ VProps.validate_value_numeric_range P s mn mx true ign = (true, Msg.none)
      ∧ VProps.validate_value_numeric_range P s mn mx false ign
          = (false, Msg.str ("No key ending with '" ++ s ++ "' found")) := by
  have hr := VProps.gkv_of_filtered_nil P s ign h
  unfold VProps.validate_value_expected VProps.validate_value_regex
    VProps.validate_value_numeric_range
  rw [hr]
  simp

/-- C6, witness: a map whose only key is scoped to the ignored `dev`
profile leaves the suffix unresolved, so the flag decides each check. -/
theorem absent_key_flag_behavior_witness :
    VProps.filtered_keys [("%dev.x.acks", "1")] "acks" ["dev"] = []
      ∧ (VProps.validate_value_expected [("%dev.x.acks", "1")] "acks" (StrOrList.one "all") true ["dev"]
            = (true, Msg.none)
          ∧ VProps.validate_value_expected [("%dev.x.acks", "1")] "acks" (StrOrList.one "all") false ["dev"]
              = (false, Msg.str ("No key ending with '" ++ "acks" ++ "' found"))
          ∧ VProps.validate_value_regex [("%dev.x.acks", "1")] "acks" appIdPattern true ["dev"]
              = (true, Msg.none)
          ∧ VProps.validate_value_regex [("%dev.x.acks", "1")] "acks" appIdPattern false ["dev"]
              = (false, Msg.str ("No key ending with '" ++ "acks" ++ "' found"))
          ∧ VProps.validate_value_numeric_range [("%dev.x.acks", "1")] "acks" 0 Option.none true ["dev"]
              = (true, Msg.none)
          ∧ VProps.validate_value_numeric_range [("%dev.x.acks", "1")] "acks" 0 Option.none false ["dev"]
              = (false, Msg.str ("No key ending with '" ++ "acks" ++ "' found"))) :=
  ⟨by decide,
   absent_key_flag_behavior [("%dev.x.acks", "1")] "acks" ["dev"]
     (StrOrList.one "all") appIdPattern 0 Option.none (by decide)⟩

/-- The error-accumulation pattern of `validate_properties`: run the
remaining rules, appending the message of each failing one. -/
def appendFailures (acc : List String) : List (Bool × String) → List String
  | [] => acc
  | (b, m) :: rest => appendFailures (if b then acc else acc ++ [m]) rest

/-- Accumulating failures left to right yields exactly one message per
failing rule, in rule order. -/
theorem appendFailures_eq (rs : List (Bool × String)) (acc : List String) :
    appendFailures acc rs = acc ++ failuresInOrder rs := by
  induction rs generalizing acc with
  | nil => simp [appendFailures, failuresInOrder]
  | cons r rest ih =>
    obtain ⟨b, m⟩ := r
    cases b <;> simp [appendFailures, failuresInOrder, ih]

/-- C7, amended.  `validate_properties` equals the declarative reading of
its catalog: every rule's outcome is computed in declaration order and the
returned list holds exactly one wrapped message per failing rule, in that
order, passing rules contributing nothing — provided the numeric-relation
rule returns normally; when that rule raises, the exception propagates and
no error list is returned (see the counterexample). -/
theorem validate_properties_catalog (P : Props) :
    VProps.validate_properties P = (VProps.ruleOutcomes P).map failuresInOrder := by
  unfold VProps.validate_properties VProps.ruleOutcomes
  cases hrel : VProps.validate_numeric_property_relation P "request.timeout.ms"
      "default.api.timeout.ms" (1.5 : Rat) 5 ["dev", "test"] with
  | error e => rfl
  | ok r7 =>
    show Except.ok (appendFailures [] (VProps.ruleList P r7))
        = Except.map failuresInOrder (Except.ok (VProps.ruleList P r7))
    rw [appendFailures_eq]
    simp [Except.map]

/-- C7, counterexample.  On a map where `request.timeout.ms` is present and
numeric while `default.api.timeout.ms` is absent, `validate_properties`
does not return an error list at all: the numeric-relation rule's uncaught
`TypeError` aborts the run, so not every rule runs and no per-rule error
list is produced. -/
theorem validate_properties_raises_cex :
    VProps.validate_properties [("request.timeout.ms", "100")]
        = Except.error pyFloatNoneTypeError
      ∧ (VProps.validate_properties [("request.timeout.ms", "100")]).isOk = false :=
  ⟨rfl, rfl⟩

/-- C8, counterexample.  For the map built from
`kafka-streams.producer.acks=1` the validator returns twelve error
messages, not exactly one: every check whose
`treat_key_not_found_as_success` flag is false also fails on this
nearly-empty map. -/
theorem acks_scenario_error_count :
    (VProps.validate_properties [("kafka-streams.producer.acks", "1")]).map List.length
        = Except.ok 12
      ∧ (12 : Nat) ≠ 1 :=
  ⟨rfl, by decide⟩

/-- C8, amended.  For the map built from `kafka-streams.producer.acks=1`
the validator returns twelve error messages, exactly one of which
references both `acks` and the expected value `all`. -/
theorem acks_scenario_amended :
    (VProps.validate_properties [("kafka-streams.producer.acks", "1")]).map
        (fun errs => (errs.length,
          (errs.filter (fun m => containsSub m "acks" && containsSub m "all")).length))
      = Except.ok (12, 1) := rfl

/-- C10.  Every rule function defined in both modules returns the same
success component on every input (the resolver and the functions whose
bodies are identical agree on the whole result; the three functions whose
diagnostic texts differ still agree on the Boolean). -/
theorem dual_module_bool_agreement :
    (∀ (P : Props) (s : String),
        (VProps.validate_property_not_set P s).1 = (Vals.validate_property_not_set P s).1)
    ∧ (∀ (P : Props) (s : String) (ev : StrOrList) (b : Bool) (ign : List String),
        (VProps.validate_value_expected P s ev b ign).1
          = (Vals.validate_value_expected P s ev b ign).1)
    ∧ (∀ (P : Props) (s : String) (pat : SimpleRE) (b : Bool) (ign : List String),
        (VProps.validate_value_regex P s pat b ign).1
          = (Vals.validate_value_regex P s pat b ign).1)
    ∧ (∀ (P : Props) (s : String) (mn : Rat) (mx : Option Rat) (b : Bool) (ign : List String),
        (VProps.validate_value_numeric_range P s mn mx b ign).1
          = (Vals.validate_value_numeric_range P s mn mx b ign).1)
    ∧ (∀ (P : Props) (s : String) (ign : List String),
        VProps.get_key_value_by_suffix P s ign = Vals.get_key_value_by_suffix P s ign)
    ∧ (∀ (P : Props) (s1 s2 : String) (mn mx : Rat) (ign : List String),
        (VProps.validate_numeric_property_relation P s1 s2 mn mx ign).map Prod.fst
          = (Vals.validate_numeric_property_relation P s1 s2 mn mx ign).map Prod.fst)
    ∧ (∀ (P : Props) (s1 s2 : String) (ign : List String),
        (VProps.validate_exclusive_property_setting P s1 s2 ign).1
          = (Vals.validate_exclusive_property_setting P s1 s2 ign).1)
    ∧ (∀ (P : Props) (s1 e s2 : String) (mn mx : Rat) (ign : List String),
        (VProps.validate_conditional_numeric_range P s1 e s2 mn mx ign).1
          = (Vals.validate_conditional_numeric_range P s1 e s2 mn mx ign).1) := by
  refine ⟨fun P s => rfl, ?_, ?_, ?_, fun P s ign => rfl,
    fun P s1 s2 mn mx ign => rfl, fun P s1 s2 ign => rfl,
    fun P s1 e s2 mn mx ign => rfl⟩
  · intro P s ev b ign
    unfold VProps.validate_value_expected Vals.validate_value_expected
    rw [show Vals.get_key_value_by_suffix = VProps.get_key_value_by_suffix from rfl]
    rcases VProps.gkv_cases P s ign with h | ⟨k, v, hk, h⟩
    · rw [h]; cases b <;> rfl
    · rw [h]
      by_cases hc : v ∈ ev.toList <;> simp [hc]
  · intro P s pat b ign
    unfold VProps.validate_value_regex Vals.validate_value_regex
    rw [show Vals.get_key_value_by_suffix = VProps.get_key_value_by_suffix from rfl]
    rcases VProps.gkv_cases P s ign with h | ⟨k, v, hk, h⟩
    · rw [h]
    · rw [h]
      cases hc : reMatch pat v <;> simp [hc]
  · intro P s mn mx b ign
    unfold VProps.validate_value_numeric_range Vals.validate_value_numeric_range
    rw [show Vals.get_key_value_by_suffix = VProps.get_key_value_by_suffix from rfl]
    rw [show Vals.is_numeric = VProps.is_numeric from rfl]
    rcases VProps.gkv_cases P s ign with h | ⟨k, v, hk, h⟩
    · rw [h]; cases b <;> rfl
    · rw [h]
      cases hn : VProps.is_numeric v
      · simp [hn]
      · cases hr : (decide (mn ≤ (pyFloat? v).getD 0) && leMax ((pyFloat? v).getD 0) mx) <;>
          simp [hn, hr]
